import Mathlib

/-!
Shallow embedding of the alert-engine core of the HealthCare-with-Alerts-Summarizer
repository (src/backend/alert-engine/app/alerts.py, main.py, mongodb_client.py),
together with theorems settling the frozen claims about it.
-/

namespace HealthAlerts

/-- Severity strings, from the AlertSeverity str-enum in alerts.py. -/
def AlertSeverity.CRITICAL : String := "critical"

def AlertSeverity.WARNING : String := "warning"

def AlertSeverity.INFO : String := "info"

def AlertSeverity.NORMAL : String := "normal"

/-- Alert type strings, from the AlertType str-enum in alerts.py. -/
def AlertType.TACHYCARDIA : String := "Tachycardia Alert"

def AlertType.BRADYCARDIA : String := "Bradycardia Alert"

def AlertType.HYPOXIA : String := "Hypoxia Alert"

def AlertType.HYPERTENSIVE_CRISIS : String := "Hypertensive Crisis"

def AlertType.HYPOTENSION : String := "Hypotension Alert"

def AlertType.FEVER : String := "Fever Alert"

def AlertType.HYPOTHERMIA : String := "Hypothermia Alert"

def AlertType.TACHYPNEA : String := "Tachypnea Alert"

def AlertType.BRADYPNEA : String := "Bradypnea Alert"

def AlertType.SENSOR_DISCONNECT : String := "Sensor Disconnection"

/-- The Alert pydantic model of alerts.py. -/
structure Alert where
  id : String
  patient_id : String
  type : String
  message : String
  severity : String
  vital_type : String
  vital_value : ℚ
  threshold : ℚ
  timestamp : String
  acknowledged : Bool := false
deriving DecidableEq, Repr

/-- The threshold settings consumed by analyze_vitals via app.config.get_settings.
The config module itself is not part of the sources; the thresholds are a
parameter of the embedding. -/
structure Settings where
  hr_high_critical : ℚ
  hr_high_warning : ℚ
  hr_low_warning : ℚ
  hr_low_critical : ℚ
  spo2_critical : ℚ
  spo2_warning : ℚ
  bp_systolic_critical : ℚ
  bp_systolic_warning : ℚ
  bp_systolic_low_critical : ℚ
  temp_critical : ℚ
  temp_warning : ℚ
  temp_low_critical : ℚ
  resp_high_critical : ℚ
  resp_high_warning : ℚ
  resp_low_critical : ℚ
deriving DecidableEq, Repr

/-- Modelled from the spec: config.py is absent from src, so concrete threshold
values are reconstructed from the message hints of the spec and of alerts.py
(normal heart rate 60-100, SpO2 normal above 95, blood pressure normal below
140/90, temperature normal 36.1-37.2, respiratory normal 12-20). -/
def defaultSettings : Settings where
  hr_high_critical := 120
  hr_high_warning := 100
  hr_low_warning := 60
  hr_low_critical := 50
  spo2_critical := 90
  spo2_warning := 95
  bp_systolic_critical := 180
  bp_systolic_warning := 140
  bp_systolic_low_critical := 90
  temp_critical := mkRat 79 2
  temp_warning := 38
  temp_low_critical := 35
  resp_high_critical := 30
  resp_high_warning := 24
  resp_low_critical := 8

/-- Orderings a sensible deployment of the thresholds satisfies: each channel
has its boundaries in order, and the neutral default values of analyze_vitals
(systolic 120, temperature 37.0, respiratory 16) fall in the silent band. -/
def Settings.WellOrdered (s : Settings) : Prop :=
  0 < s.hr_low_critical ∧ s.hr_low_critical < s.hr_low_warning ∧
  s.hr_low_warning < s.hr_high_warning ∧ s.hr_high_warning < s.hr_high_critical ∧
  0 ≤ s.spo2_critical ∧ s.spo2_critical < s.spo2_warning ∧ s.spo2_warning < 100 ∧
  0 < s.bp_systolic_low_critical ∧ s.bp_systolic_low_critical < 120 ∧
  120 < s.bp_systolic_warning ∧ s.bp_systolic_warning < s.bp_systolic_critical ∧
  0 < s.temp_low_critical ∧ s.temp_low_critical < 37 ∧
  37 < s.temp_warning ∧ s.temp_warning < s.temp_critical ∧
  0 < s.resp_low_critical ∧ s.resp_low_critical < 16 ∧
  16 < s.resp_high_warning ∧ s.resp_high_warning < s.resp_high_critical

instance (s : Settings) : Decidable s.WellOrdered := by
  unfold Settings.WellOrdered; infer_instance

/-- The nested blood-pressure mapping of a vitals reading. -/
structure BloodPressure where
  systolic : Option ℚ := none
  diastolic : Option ℚ := none
deriving DecidableEq, Repr

/-- A raw vitals reading: a dict with optional keys, in either naming
convention, as consumed by AlertEngine.analyze_vitals. -/
structure Vitals where
  heartRate : Option ℚ := none
  heart_rate : Option ℚ := none
  spO2 : Option ℚ := none
  spo2 : Option ℚ := none
  bloodPressure : Option BloodPressure := none
  blood_pressure : Option BloodPressure := none
  temperature : Option ℚ := none
  respiratory : Option ℚ := none
  respiratory_rate : Option ℚ := none
deriving DecidableEq, Repr

/-- Python idiom vitals.get(camel) or vitals.get(snake, default): a missing
camel key, or a present camel value of 0 (falsy), falls through to the snake
key, which in turn defaults. -/
def pyOrNum (camel snake : Option ℚ) (dflt : ℚ) : ℚ :=
  match camel with
  | some v => if v = 0 then snake.getD dflt else v
  | none => snake.getD dflt

/-- Python idiom vitals.get(camel) or vitals.get(snake, default-empty-dict) for
the blood-pressure sub-dict: an empty dict is falsy. -/
def pyOrDict (camel snake : Option BloodPressure) : BloodPressure :=
  match camel with
  | some b => if b.systolic.isNone && b.diastolic.isNone then snake.getD {} else b
  | none => snake.getD {}

/-- The pure classification payload of one alert: everything analyze_vitals
puts into an Alert except the generated id and the timestamp. -/
structure AlertSpec where
  type : String
  message : String
  severity : String
  vital_type : String
  vital_value : ℚ
  threshold : ℚ
deriving DecidableEq, Repr

/-- Heart-rate rules of analyze_vitals: an if-elif pair for the high side
(non-strict comparisons) and an if-elif pair for the low side, the low side
guarded by heart_rate strictly positive. -/
def hrAlerts (s : Settings) (heart_rate : ℚ) : List AlertSpec :=
  (if heart_rate ≥ s.hr_high_critical then
    [⟨AlertType.TACHYCARDIA,
      "Critical tachycardia detected. Heart rate: " ++ toString heart_rate ++
        " bpm (threshold: >" ++ toString s.hr_high_critical ++ ")",
      AlertSeverity.CRITICAL, "heart_rate", heart_rate, s.hr_high_critical⟩]
  else if heart_rate ≥ s.hr_high_warning then
    [⟨AlertType.TACHYCARDIA,
      "Elevated heart rate detected: " ++ toString heart_rate ++ " bpm (normal: 60-100)",
      AlertSeverity.WARNING, "heart_rate", heart_rate, s.hr_high_warning⟩]
  else []) ++
  (if heart_rate ≤ s.hr_low_critical ∧ heart_rate > 0 then
    [⟨AlertType.BRADYCARDIA,
      "Critical bradycardia detected. Heart rate: " ++ toString heart_rate ++
        " bpm (threshold: <" ++ toString s.hr_low_critical ++ ")",
      AlertSeverity.CRITICAL, "heart_rate", heart_rate, s.hr_low_critical⟩]
  else if heart_rate ≤ s.hr_low_warning ∧ heart_rate > 0 then
    [⟨AlertType.BRADYCARDIA,
      "Low heart rate detected: " ++ toString heart_rate ++ " bpm (normal: 60-100)",
      AlertSeverity.WARNING, "heart_rate", heart_rate, s.hr_low_warning⟩]
  else [])

/-- SpO2 rules of analyze_vitals: a single if-elif pair for the low side, with
no positivity guard. -/
def spo2Alerts (s : Settings) (spo2 : ℚ) : List AlertSpec :=
  if spo2 ≤ s.spo2_critical then
    [⟨AlertType.HYPOXIA,
      "Critical hypoxia detected. SpO2: " ++ toString spo2 ++ "% (threshold: <" ++
        toString s.spo2_critical ++ "%)",
      AlertSeverity.CRITICAL, "spo2", spo2, s.spo2_critical⟩]
  else if spo2 ≤ s.spo2_warning then
    [⟨AlertType.HYPOXIA,
      "Low oxygen saturation detected: " ++ toString spo2 ++ "% (normal: >95%)",
      AlertSeverity.WARNING, "spo2", spo2, s.spo2_warning⟩]
  else []

/-- Blood-pressure rules of analyze_vitals: evaluated on systolic only, an
if-elif pair on the high side and a single critical rule on the low side. -/
def bpAlerts (s : Settings) (systolic diastolic : ℚ) : List AlertSpec :=
  (if systolic ≥ s.bp_systolic_critical then
    [⟨AlertType.HYPERTENSIVE_CRISIS,
      "Hypertensive crisis! BP: " ++ toString systolic ++ "/" ++ toString diastolic ++
        " mmHg (threshold: >" ++ toString s.bp_systolic_critical ++ ")",
      AlertSeverity.CRITICAL, "blood_pressure", systolic, s.bp_systolic_critical⟩]
  else if systolic ≥ s.bp_systolic_warning then
    [⟨AlertType.HYPERTENSIVE_CRISIS,
      "Elevated blood pressure: " ++ toString systolic ++ "/" ++ toString diastolic ++
        " mmHg (normal: <140/90)",
      AlertSeverity.WARNING, "blood_pressure", systolic, s.bp_systolic_warning⟩]
  else []) ++
  (if systolic ≤ s.bp_systolic_low_critical ∧ systolic > 0 then
    [⟨AlertType.HYPOTENSION,
      "Critical hypotension! BP: " ++ toString systolic ++ "/" ++ toString diastolic ++
        " mmHg (threshold: <" ++ toString s.bp_systolic_low_critical ++ ")",
      AlertSeverity.CRITICAL, "blood_pressure", systolic, s.bp_systolic_low_critical⟩]
  else [])

/-- Temperature rules of analyze_vitals: if-elif on the high side, a single
critical rule on the low side, no low warning threshold. -/
def tempAlerts (s : Settings) (temperature : ℚ) : List AlertSpec :=
  (if temperature ≥ s.temp_critical then
    [⟨AlertType.FEVER,
      "High fever detected: " ++ toString temperature ++ "°C (threshold: >" ++
        toString s.temp_critical ++ "°C)",
      AlertSeverity.CRITICAL, "temperature", temperature, s.temp_critical⟩]
  else if temperature ≥ s.temp_warning then
    [⟨AlertType.FEVER,
      "Elevated temperature: " ++ toString temperature ++ "°C (normal: 36.1-37.2°C)",
      AlertSeverity.WARNING, "temperature", temperature, s.temp_warning⟩]
  else []) ++
  (if temperature ≤ s.temp_low_critical ∧ temperature > 0 then
    [⟨AlertType.HYPOTHERMIA,
      "Critical hypothermia: " ++ toString temperature ++ "°C (threshold: <" ++
        toString s.temp_low_critical ++ "°C)",
      AlertSeverity.CRITICAL, "temperature", temperature, s.temp_low_critical⟩]
  else [])

/-- Respiratory-rate rules of analyze_vitals: if-elif on the high side, a
single critical rule on the low side, no low warning threshold. -/
def respAlerts (s : Settings) (respiratory : ℚ) : List AlertSpec :=
  (if respiratory ≥ s.resp_high_critical then
    [⟨AlertType.TACHYPNEA,
      "Critical tachypnea: " ++ toString respiratory ++ "/min (threshold: >" ++
        toString s.resp_high_critical ++ ")",
      AlertSeverity.CRITICAL, "respiratory_rate", respiratory, s.resp_high_critical⟩]
  else if respiratory ≥ s.resp_high_warning then
    [⟨AlertType.TACHYPNEA,
      "Elevated respiratory rate: " ++ toString respiratory ++ "/min (normal: 12-20)",
      AlertSeverity.WARNING, "respiratory_rate", respiratory, s.resp_high_warning⟩]
  else []) ++
  (if respiratory ≤ s.resp_low_critical ∧ respiratory > 0 then
    [⟨AlertType.BRADYPNEA,
      "Critical bradypnea: " ++ toString respiratory ++ "/min (threshold: <" ++
        toString s.resp_low_critical ++ ")",
      AlertSeverity.CRITICAL, "respiratory_rate", respiratory, s.resp_low_critical⟩]
  else [])

/-- Sensor-disconnection rule of analyze_vitals: fires when heart rate or SpO2
equals zero, always warning severity with vital value and threshold 0. -/
def sensorAlerts (heart_rate spo2 : ℚ) : List AlertSpec :=
  if heart_rate = 0 ∨ spo2 = 0 then
    [⟨AlertType.SENSOR_DISCONNECT,
      "Vital signs sensor may be disconnected. Check patient monitoring equipment.",
      AlertSeverity.WARNING, "sensor", 0, 0⟩]
  else []

/-- The pure classification part of AlertEngine.analyze_vitals: extract the
vitals (handling both naming conventions and the neutral defaults), then run
every channel rule in source order. -/
def classifySpecs (s : Settings) (v : Vitals) : List AlertSpec :=
  let heart_rate := pyOrNum v.heartRate v.heart_rate 0
  let spo2 := pyOrNum v.spO2 v.spo2 100
  let bp := pyOrDict v.bloodPressure v.blood_pressure
  let systolic := bp.systolic.getD 120
  let diastolic := bp.diastolic.getD 80
  let temperature := v.temperature.getD 37
  let respiratory := pyOrNum v.respiratory v.respiratory_rate 16
  hrAlerts s heart_rate ++ spo2Alerts s spo2 ++ bpAlerts s systolic diastolic ++
    tempAlerts s temperature ++ respAlerts s respiratory ++
    sensorAlerts heart_rate spo2

/-- Little-endian base-10 digits of a natural number, fuel-driven so the
kernel can evaluate it (fuel at least n suffices). -/
def digitsLE : Nat → Nat → List Nat
  | 0, _ => []
  | fuel + 1, n => if n = 0 then [] else n % 10 :: digitsLE fuel (n / 10)

/-- Little-endian base-10 digits of n. -/
def natDigits (n : Nat) : List Nat := digitsLE n n

/-- Big-endian digits of n, zero-padded on the left to width 5, as Python
percent-05d does (wider numbers keep all their digits). -/
def padDigits (n : Nat) : List Nat :=
  List.replicate (5 - (natDigits n).length) 0 ++ (natDigits n).reverse

/-- The character rendering of the padded sequence number. -/
def padSeq (n : Nat) : List Char := (padDigits n).map Nat.digitChar

/-- AlertEngine._generate_alert_id: the id of the alert created while the
counter reaches n on a day whose strftime rendering is date. -/
def genAlertId (date : String) (n : Nat) : String :=
  "ALT-" ++ date ++ "-" ++ String.mk (padSeq n)

/-- Decode the numeric value of a padded digit string (left inverse of
padSeq). -/
def decodePad (l : List Char) : Nat :=
  Nat.ofDigits 10 ((l.map fun c => c.toNat - 48).reverse)

/-- The two datetime.now() renderings one analyze call uses: the strftime
date for alert ids and the isoformat instant for timestamps. -/
structure Clock where
  dateStr : String
  isoStr : String

/-- The mutable state of AlertEngine: the active_alerts dict (an
insertion-ordered association list, as a Python dict is) and the id counter. -/
structure AlertEngine where
  active_alerts : List (String × List Alert)
  alert_counter : Nat
deriving DecidableEq, Repr

/-- Lookup in the active_alerts dict, empty when the subject is unknown
(dict.get(patient_id, [])). -/
def getHistory (store : List (String × List Alert)) (pid : String) : List Alert :=
  match store with
  | [] => []
  | (p, als) :: rest => if p = pid then als else getHistory rest pid

/-- Write one subject's history: replace the value in place when the key
exists, otherwise insert the key at the end, as a Python dict does. -/
def setHistory (store : List (String × List Alert)) (pid : String) (h : List Alert) :
    List (String × List Alert) :=
  match store with
  | [] => [(pid, h)]
  | (p, als) :: rest =>
      if p = pid then (p, h) :: rest else (p, als) :: setHistory rest pid h

/-- The accumulation step at the end of analyze_vitals: when the new batch is
nonempty, prepend it to the existing history (creating the entry if missing)
and truncate to the 50 most recent. -/
def accumulate (pid : String) (newAlerts : List Alert)
    (store : List (String × List Alert)) : List (String × List Alert) :=
  if newAlerts.isEmpty then store
  else setHistory store pid ((newAlerts ++ getHistory store pid).take 50)

/-- Build the Alert record analyze_vitals appends for one triggered rule. -/
def mkAlert (aid pid ts : String) (sp : AlertSpec) : Alert :=
  ⟨aid, pid, sp.type, sp.message, sp.severity, sp.vital_type, sp.vital_value,
    sp.threshold, ts, false⟩

/-- AlertEngine.analyze_vitals: classify the reading, materialize the alerts
with freshly generated ids and the call timestamp, and accumulate them into
the per-patient store. Returns the new alerts and the updated engine. -/
def analyze_vitals (s : Settings) (c : Clock) (pid : String) (v : Vitals)
    (e : AlertEngine) : List Alert × AlertEngine :=
  let specs := classifySpecs s v
  let alerts := specs.enum.map fun p =>
    mkAlert (genAlertId c.dateStr (e.alert_counter + p.1 + 1)) pid c.isoStr p.2
  (alerts, ⟨accumulate pid alerts e.active_alerts, e.alert_counter + specs.length⟩)

/-- AlertEngine.get_patient_alerts. -/
def get_patient_alerts (e : AlertEngine) (pid : String) : List Alert :=
  getHistory e.active_alerts pid

/-- Inner loop of AlertEngine.acknowledge_alert over one patient's history:
flip the first alert matching the id and report whether one was found. -/
def ackList (aid : String) : List Alert → Bool × List Alert
  | [] => (false, [])
  | a :: rest =>
      if a.id = aid then (true, { a with acknowledged := true } :: rest)
      else
        let r := ackList aid rest
        (r.1, a :: r.2)

/-- Outer loop of AlertEngine.acknowledge_alert over the patients of the
store, in dict order, stopping at the first match. -/
def ackStore (aid : String) : List (String × List Alert) → Bool × List (String × List Alert)
  | [] => (false, [])
  | (p, als) :: rest =>
      let r := ackList aid als
      if r.1 then (true, (p, r.2) :: rest)
      else
        let r2 := ackStore aid rest
        (r2.1, (p, als) :: r2.2)

/-- AlertEngine.acknowledge_alert: returns the found flag and the updated
engine. -/
def acknowledge_alert (aid : String) (e : AlertEngine) : Bool × AlertEngine :=
  let r := ackStore aid e.active_alerts
  (r.1, { e with active_alerts := r.2 })

/-- Every alert of the store, patients in dict order, each history in order:
the traversal order of acknowledge_alert. -/
def allAlerts (store : List (String × List Alert)) : List Alert :=
  (store.map Prod.snd).flatten

/-- One row of the alert_templates table of _seed_initial_alerts: the type,
message rendering, vital type, severity and the low and high bounds of the
random value range (the low bound is also the recorded threshold). -/
structure SeedTemplate where
  type : String
  mkMessage : ℚ → String
  vital_type : String
  severity : String
  lo : ℚ
  hi : ℚ

/-- The six seed alert templates of _seed_initial_alerts. -/
def seedTemplates : List SeedTemplate :=
  [⟨AlertType.TACHYCARDIA, fun v => "Elevated heart rate detected: " ++ toString v ++ " bpm",
    "heart_rate", AlertSeverity.WARNING, 75, 130⟩,
   ⟨AlertType.HYPOXIA, fun v => "Low oxygen saturation: " ++ toString v ++ "%",
    "spo2", AlertSeverity.WARNING, 88, 94⟩,
   ⟨AlertType.HYPERTENSIVE_CRISIS, fun v => "Elevated blood pressure: " ++ toString v ++ "/90 mmHg",
    "blood_pressure", AlertSeverity.WARNING, 140, 175⟩,
   ⟨AlertType.FEVER, fun v => "Elevated temperature: " ++ toString v ++ "°C",
    "temperature", AlertSeverity.WARNING, 38, mkRat 79 2⟩,
   ⟨AlertType.TACHYPNEA, fun v => "Elevated respiratory rate: " ++ toString v ++ "/min",
    "respiratory_rate", AlertSeverity.WARNING, 24, 28⟩,
   ⟨AlertType.BRADYCARDIA, fun v => "Low heart rate detected: " ++ toString v ++ " bpm",
    "heart_rate", AlertSeverity.CRITICAL, 42, 55⟩]

/-- Pick a seed template by index. -/
def seedTemplate (k : Fin 6) : SeedTemplate := seedTemplates.get ⟨k.val, k.isLt⟩

/-- Zero-padding to width 3, as str(i).zfill(3) does for the seeded patient
ids P001 to P010. -/
def zfill3 (n : Nat) : String :=
  String.mk ((List.replicate (3 - (natDigits n).length) 0 ++ (natDigits n).reverse).map
    Nat.digitChar)

/-- AlertEngine._seed_initial_alerts, run by the constructor: for each of the
ten patients P001-P010, five alerts built from randomly chosen templates.
The random draws (template choice, value in the template range, timestamp
within the last 30 minutes) are supplied as oracle functions of the patient
index and alert index; the id counter advances once per created alert. -/
def seedEngine (choose : Nat → Nat → Fin 6) (val : Nat → Nat → ℚ)
    (ts : Nat → Nat → String) (date : String) : AlertEngine :=
  let entries := (List.range 10).map fun i =>
    ("P" ++ zfill3 (i + 1),
     (List.range 5).map fun j =>
       let t := seedTemplate (choose i j)
       { id := genAlertId date (5 * i + j + 1)
         patient_id := "P" ++ zfill3 (i + 1)
         type := t.type
         message := t.mkMessage (val i j)
         severity := t.severity
         vital_type := t.vital_type
         vital_value := val i j
         threshold := t.lo
         timestamp := ts i j
         acknowledged := false : Alert })
  ⟨entries, 50⟩

/-- Stable insertion of an alert into a timestamp-descending list: walk past
strictly newer entries, insert before the first entry at most as new. -/
def insertDesc (a : Alert) : List Alert → List Alert
  | [] => [a]
  | b :: l =>
      if a.timestamp.data < b.timestamp.data then b :: insertDesc a l
      else a :: b :: l

/-- Stable sort by timestamp descending, the semantics of Python
list.sort(key=timestamp, reverse=True). -/
def sortDesc : List Alert → List Alert
  | [] => []
  | a :: l => insertDesc a (sortDesc l)

/-- The deduplication loop of the merged branch of GET /api/alerts/patient:
keep an alert when its id (alert-id key falling back to id, a falsy empty id
dropping the entry) has not been seen, remembering seen ids. -/
def dedupeById : List Alert → List String → List Alert
  | [], _ => []
  | a :: rest, seen =>
      if a.id ≠ "" ∧ a.id ∉ seen then a :: dedupeById rest (a.id :: seen)
      else dedupeById rest seen

/-- The merged branch of GET /api/alerts/patient in main.py: concatenate the
in-memory alerts with the MongoDB alerts, deduplicate by id keeping first
occurrences, sort by timestamp descending, truncate to the limit. -/
def mergedQuery (memory mongo : List Alert) (lim : Nat) : List Alert :=
  (sortDesc (dedupeById (memory ++ mongo) [])).take lim

/-- Hexadecimal digit test for the ObjectId validity model. -/
def isHexDigit (c : Char) : Bool :=
  c.isDigit || ('a' ≤ c && c ≤ 'f') || ('A' ≤ c && c ≤ 'F')

/-- Validity of a MongoDB ObjectId string, modelling the bson library (an
external collaborator): the constructor accepts exactly a 24-character
hexadecimal string and raises otherwise. -/
def isValidObjectId (s : String) : Bool :=
  s.length = 24 && s.data.all isHexDigit

/-- One persisted alert record of the durable store. -/
structure MongoRec where
  oid : String
  alert : Alert
  acknowledged : Bool
deriving DecidableEq, Repr

/-- mongodb_client.acknowledge_alert: with no connection, false; with an
invalid ObjectId string the conversion raises, the handler catches and
returns false leaving the store unchanged; otherwise update the matching
record and report whether one was modified. -/
def mongoAcknowledge (db : Option (List MongoRec)) (aid : String) :
    Bool × Option (List MongoRec) :=
  match db with
  | none => (false, none)
  | some recs =>
      if isValidObjectId aid then
        (recs.any fun r => r.oid = aid,
         some (recs.map fun r => if r.oid = aid then { r with acknowledged := true } else r))
      else (false, some recs)

/-- The POST acknowledge endpoint of main.py: acknowledge in memory, also in
MongoDB, and decide success (versus 404) from the in-memory result alone. -/
def acknowledgeEndpoint (aid : String) (e : AlertEngine)
    (db : Option (List MongoRec)) : Bool × AlertEngine × Option (List MongoRec) :=
  let success := acknowledge_alert aid e
  let m := mongoAcknowledge db aid
  (success.1, success.2, m.2)

/-- The id strings produced by a run of the generator: each successive call
increments the counter and formats it with the date supplied by the clock at
that call. -/
def idGenRun : Nat → List String → List String
  | _, [] => []
  | start, d :: ds => genAlertId d (start + 1) :: idGenRun (start + 1) ds

/-- The reading of the end-to-end sensor-disconnect scenario. -/
def readingZero : Vitals := { heart_rate := some 0, spo2 := some 0 }

/-- A reading whose temperature 35.5 lies strictly between the low-critical
boundary 35.0 and the normal band, all other channels nominal. -/
def readingLowTemp : Vitals :=
  { heart_rate := some 70, spo2 := some 97, temperature := some (mkRat 71 2) }

/-- A reading supplying SpO2 0 under the camelCase key only. -/
def readingCamelSpO2 : Vitals := { spO2 := some 0 }

/-- A reading supplying SpO2 0 under the snake_case key only. -/
def readingSnakeSpo2 : Vitals := { spo2 := some 0 }

/-- A reading with the heart rate exactly at the default high-critical
boundary. -/
def readingHrBoundary : Vitals := { heart_rate := some 120, spo2 := some 97 }

/-- A fixed clock for concrete scenarios. -/
def sampleClock : Clock := ⟨"20240101", "2024-01-01T08:00:00"⟩

/-- An engine with no histories and a fresh counter. -/
def emptyEngine : AlertEngine := ⟨[], 0⟩

/-- Live-store copy of alert A1 for the merge scenario (acknowledged, so it
is distinguishable from the durable copy). -/
def alertLiveA1 : Alert :=
  ⟨"ALT-20240101-00001", "P001", AlertType.HYPOXIA, "live copy",
    AlertSeverity.WARNING, "spo2", 91, 95, "2024-01-02T10:00:00", true⟩

/-- Durable-store copy of alert A1 (same id as the live copy). -/
def alertDbA1 : Alert :=
  ⟨"ALT-20240101-00001", "P001", AlertType.HYPOXIA, "durable copy",
    AlertSeverity.WARNING, "spo2", 91, 95, "2024-01-02T10:00:00", false⟩

/-- Durable-store alert A2, older than A1. -/
def alertDbA2 : Alert :=
  ⟨"ALT-20240101-00002", "P001", AlertType.TACHYCARDIA, "durable older",
    AlertSeverity.WARNING, "heart_rate", 130, 100, "2024-01-01T09:00:00", false⟩

/-- First accumulated alert of the bounded-history scenario. -/
def alertBatch1 : Alert :=
  ⟨"ALT-20240101-00003", "P002", AlertType.FEVER, "first",
    AlertSeverity.WARNING, "temperature", 38, 38, "2024-01-01T10:00:00", false⟩

/-- Second accumulated alert of the bounded-history scenario. -/
def alertBatch2 : Alert :=
  ⟨"ALT-20240101-00004", "P002", AlertType.FEVER, "second",
    AlertSeverity.WARNING, "temperature", 39, 38, "2024-01-01T11:00:00", false⟩

/-- First alert of the acknowledgment scenario. -/
def alertAck1 : Alert :=
  ⟨"ALT-20240101-00005", "P003", AlertType.HYPOXIA, "ack first",
    AlertSeverity.WARNING, "spo2", 92, 95, "2024-01-01T12:00:00", false⟩

/-- Second alert of the acknowledgment scenario. -/
def alertAck2 : Alert :=
  ⟨"ALT-20240101-00006", "P003", AlertType.FEVER, "ack second",
    AlertSeverity.WARNING, "temperature", 39, 38, "2024-01-01T12:05:00", false⟩

/-- An engine holding the two acknowledgment-scenario alerts. -/
def engineAck : AlertEngine := ⟨[("P003", [alertAck1, alertAck2])], 6⟩

/-- A heart rate in the silent band produces no heart-rate alert. -/
theorem hrAlerts_eq_nil (s : Settings) (v : ℚ) (h1 : ¬v ≥ s.hr_high_critical)
    (h2 : ¬v ≥ s.hr_high_warning) (h3 : ¬(v ≤ s.hr_low_critical ∧ v > 0))
    (h4 : ¬(v ≤ s.hr_low_warning ∧ v > 0)) : hrAlerts s v = [] := by
  unfold hrAlerts
  rw [if_neg h1, if_neg h2, if_neg h3, if_neg h4]
  rfl

/-- An SpO2 above both low boundaries produces no SpO2 alert. -/
theorem spo2Alerts_eq_nil (s : Settings) (v : ℚ) (h1 : ¬v ≤ s.spo2_critical)
    (h2 : ¬v ≤ s.spo2_warning) : spo2Alerts s v = [] := by
  unfold spo2Alerts
  rw [if_neg h1, if_neg h2]

/-- A systolic value in the silent band produces no blood-pressure alert. -/
theorem bpAlerts_eq_nil (s : Settings) (v d : ℚ) (h1 : ¬v ≥ s.bp_systolic_critical)
    (h2 : ¬v ≥ s.bp_systolic_warning) (h3 : ¬(v ≤ s.bp_systolic_low_critical ∧ v > 0)) :
    bpAlerts s v d = [] := by
  unfold bpAlerts
  rw [if_neg h1, if_neg h2, if_neg h3]
  rfl

/-- A temperature in the silent band produces no temperature alert. -/
theorem tempAlerts_eq_nil (s : Settings) (v : ℚ) (h1 : ¬v ≥ s.temp_critical)
    (h2 : ¬v ≥ s.temp_warning) (h3 : ¬(v ≤ s.temp_low_critical ∧ v > 0)) :
    tempAlerts s v = [] := by
  unfold tempAlerts
  rw [if_neg h1, if_neg h2, if_neg h3]
  rfl

/-- A respiratory rate in the silent band produces no respiratory alert. -/
theorem respAlerts_eq_nil (s : Settings) (v : ℚ) (h1 : ¬v ≥ s.resp_high_critical)
    (h2 : ¬v ≥ s.resp_high_warning) (h3 : ¬(v ≤ s.resp_low_critical ∧ v > 0)) :
    respAlerts s v = [] := by
  unfold respAlerts
  rw [if_neg h1, if_neg h2, if_neg h3]
  rfl

/-- The classification payload of the alerts returned by analyze_vitals is the
payload of the pure classification of the reading. -/
theorem analyze_map_eq (s : Settings) (c : Clock) (pid : String) (v : Vitals)
    (e : AlertEngine) :
    ((analyze_vitals s c pid v e).1.map fun a =>
        (a.type, a.severity, a.vital_value, a.threshold)) =
      (classifySpecs s v).map fun sp =>
        (sp.type, sp.severity, sp.vital_value, sp.threshold) := by
  show ((classifySpecs s v).enum.map fun p =>
      mkAlert (genAlertId c.dateStr (e.alert_counter + p.1 + 1)) pid c.isoStr p.2).map
        (fun a => (a.type, a.severity, a.vital_value, a.threshold)) = _
  rw [List.map_map]
  have : ((fun a : Alert => (a.type, a.severity, a.vital_value, a.threshold)) ∘ fun p :
      Nat × AlertSpec =>
        mkAlert (genAlertId c.dateStr (e.alert_counter + p.1 + 1)) pid c.isoStr p.2) =
      (fun sp : AlertSpec => (sp.type, sp.severity, sp.vital_value, sp.threshold)) ∘
        Prod.snd := rfl
  rw [this, ← List.map_map, List.enum_map_snd]

/-- The classification payloads of the reading with heart rate 0 and SpO2 0,
for any sensibly ordered thresholds: a critical hypoxia alert followed by the
sensor-disconnect warning. -/
theorem classify_readingZero (s : Settings) (hs : s.WellOrdered) :
    ((classifySpecs s readingZero).map fun sp =>
        (sp.type, sp.severity, sp.vital_value, sp.threshold)) =
      [(AlertType.HYPOXIA, AlertSeverity.CRITICAL, 0, s.spo2_critical),
       (AlertType.SENSOR_DISCONNECT, AlertSeverity.WARNING, 0, 0)] := by
  obtain ⟨h1, h2, h3, h4, h5, h6, h7, h8, h9, h10, h11, h12, h13, h14, h15, h16, h17,
    h18, h19⟩ := hs
  show ((hrAlerts s 0 ++ spo2Alerts s 0 ++ bpAlerts s 120 80 ++ tempAlerts s 37 ++
      respAlerts s 16 ++ sensorAlerts 0 0).map fun sp =>
        (sp.type, sp.severity, sp.vital_value, sp.threshold)) = _
  rw [hrAlerts_eq_nil s 0 (by push_neg; linarith) (by push_neg; linarith)
      (by rintro ⟨-, h⟩; exact absurd h (by norm_num))
      (by rintro ⟨-, h⟩; exact absurd h (by norm_num)),
    bpAlerts_eq_nil s 120 80 (by push_neg; linarith) (by push_neg; linarith)
      (by rintro ⟨h, -⟩; linarith),
    tempAlerts_eq_nil s 37 (by push_neg; linarith) (by push_neg; linarith)
      (by rintro ⟨h, -⟩; linarith),
    respAlerts_eq_nil s 16 (by push_neg; linarith) (by push_neg; linarith)
      (by rintro ⟨h, -⟩; linarith)]
  unfold spo2Alerts sensorAlerts
  rw [if_pos h5, if_pos (Or.inl rfl)]
  rfl

/-- C1: the claim is refuted on the code: for the reading with heart rate 0
and SpO2 0 the engine returns two alerts, one of them a hypoxia alert, since
the SpO2 rule has no zero-sentinel guard. -/
theorem claim_C1_counterexample :
    (analyze_vitals defaultSettings sampleClock "P001" readingZero emptyEngine).1.length = 2 ∧
    ∃ a ∈ (analyze_vitals defaultSettings sampleClock "P001" readingZero emptyEngine).1,
      a.type = AlertType.HYPOXIA ∧ a.severity = AlertSeverity.CRITICAL := by
  decide

/-- C1 (amended): for the reading with heart rate 0 and SpO2 0, analyze_vitals
returns exactly two alerts: a critical hypoxia alert with vital value 0 and
threshold the SpO2 critical boundary, then a sensor-disconnect alert of
severity warning with vital value 0; no bradycardia alert is produced. -/
theorem claim_C1 (s : Settings) (hs : s.WellOrdered) (c : Clock) (pid : String)
    (e : AlertEngine) :
    ((analyze_vitals s c pid readingZero e).1.map fun a =>
        (a.type, a.severity, a.vital_value, a.threshold)) =
      [(AlertType.HYPOXIA, AlertSeverity.CRITICAL, 0, s.spo2_critical),
       (AlertType.SENSOR_DISCONNECT, AlertSeverity.WARNING, 0, 0)] ∧
    ∀ a ∈ (analyze_vitals s c pid readingZero e).1, a.type ≠ AlertType.BRADYCARDIA := by
  have hmap := (analyze_map_eq s c pid readingZero e).trans (classify_readingZero s hs)
  refine ⟨hmap, fun a ha hb => ?_⟩
  have hmem := List.mem_map_of_mem
    (fun a : Alert => (a.type, a.severity, a.vital_value, a.threshold)) ha
  rw [hmap, List.mem_cons, List.mem_cons] at hmem
  rcases hmem with h | h | h
  · rw [Prod.mk.injEq] at h
    rw [hb] at h
    exact absurd h.1 (by decide)
  · rw [Prod.mk.injEq] at h
    rw [hb] at h
    exact absurd h.1 (by decide)
  · exact absurd h (List.not_mem_nil _)

/-- C1 witness: the amended statement evaluated at the default thresholds. -/
theorem claim_C1_witness :
    defaultSettings.WellOrdered ∧
    ((analyze_vitals defaultSettings sampleClock "P001" readingZero emptyEngine).1.map
        fun a => (a.type, a.severity, a.vital_value, a.threshold)) =
      [(AlertType.HYPOXIA, AlertSeverity.CRITICAL, 0, defaultSettings.spo2_critical),
       (AlertType.SENSOR_DISCONNECT, AlertSeverity.WARNING, 0, 0)] :=
  ⟨by decide, (claim_C1 defaultSettings (by decide) sampleClock "P001" emptyEngine).1⟩

/-- C2: the claim is refuted on the code: a temperature of 35.5, strictly
between the low-critical boundary 35.0 and the normal band, yields no alert
at all on the default thresholds — temperature has no low-warning rule. -/
theorem claim_C2_counterexample :
    classifySpecs defaultSettings readingLowTemp = [] := by decide

/-- C2 (amended): only heart rate is evaluated against four thresholds; a
heart rate strictly between low-critical and low-warning yields a warning
bradycardia alert, but temperature and respiratory rate have only three
thresholds (high-critical, high-warning, low-critical): a value strictly
between the low-critical boundary and the high-warning boundary yields no
alert for those channels. -/
theorem claim_C2 (s : Settings) (hs : s.WellOrdered) (v : ℚ) :
    (s.hr_low_critical < v → v ≤ s.hr_low_warning →
      ((hrAlerts s v).map fun sp => (sp.type, sp.severity)) =
        [(AlertType.BRADYCARDIA, AlertSeverity.WARNING)]) ∧
    (s.temp_low_critical < v → v < s.temp_warning → tempAlerts s v = []) ∧
    (s.resp_low_critical < v → v < s.resp_high_warning → respAlerts s v = []) := by
  obtain ⟨h1, h2, h3, h4, h5, h6, h7, h8, h9, h10, h11, h12, h13, h14, h15, h16, h17,
    h18, h19⟩ := hs
  refine ⟨fun hlo hhi => ?_, fun hlo hhi => ?_, fun hlo hhi => ?_⟩
  · unfold hrAlerts
    rw [if_neg (by push_neg; linarith), if_neg (by push_neg; linarith),
      if_neg (by rintro ⟨h, -⟩; linarith), if_pos ⟨hhi, by linarith⟩]
    rfl
  · exact tempAlerts_eq_nil s v (by push_neg; linarith) (by push_neg; linarith)
      (by rintro ⟨h, -⟩; linarith)
  · exact respAlerts_eq_nil s v (by push_neg; linarith) (by push_neg; linarith)
      (by rintro ⟨h, -⟩; linarith)

/-- C2 witness: the amended statement at the default thresholds, at heart
rate 55, temperature 35.5 and respiratory rate 10. -/
theorem claim_C2_witness :
    defaultSettings.WellOrdered ∧
    ((hrAlerts defaultSettings 55).map fun sp => (sp.type, sp.severity)) =
      [(AlertType.BRADYCARDIA, AlertSeverity.WARNING)] ∧
    tempAlerts defaultSettings (mkRat 71 2) = [] ∧
    respAlerts defaultSettings 10 = [] :=
  ⟨by decide,
   (claim_C2 defaultSettings (by decide) 55).1 (by decide) (by decide),
   (claim_C2 defaultSettings (by decide) (mkRat 71 2)).2.1 (by decide) (by decide),
   (claim_C2 defaultSettings (by decide) 10).2.2 (by decide) (by decide)⟩

/-- C3: the claim is refuted on the code: supplying SpO2 0 under the
camelCase key is not classified like supplying it under the snake_case key,
because a present 0 is falsy in the extraction idiom and falls back to the
default 100, so the hypoxia alert is produced only for the snake_case
reading. -/
theorem claim_C3_counterexample :
    ((analyze_vitals defaultSettings sampleClock "P001" readingCamelSpO2 emptyEngine).1.map
        fun a => (a.type, a.severity, a.vital_value, a.threshold)) ≠
      ((analyze_vitals defaultSettings sampleClock "P001" readingSnakeSpo2 emptyEngine).1.map
        fun a => (a.type, a.severity, a.vital_value, a.threshold)) := by
  decide

/-- C3 (amended): for every nonzero vital value the camelCase and snake_case
keys are classified identically on every channel, and so is heart rate 0 and
any blood-pressure sub-dict; but for the zero value of spO2 (falsy, falling
back to the default 100) the two conventions differ. -/
theorem claim_C3 :
    (∀ (s : Settings) (v : ℚ), v ≠ 0 →
      classifySpecs s { heartRate := some v } = classifySpecs s { heart_rate := some v } ∧
      classifySpecs s { spO2 := some v } = classifySpecs s { spo2 := some v } ∧
      classifySpecs s { respiratory := some v } =
        classifySpecs s { respiratory_rate := some v }) ∧
    (∀ (s : Settings) (b : BloodPressure),
      classifySpecs s { bloodPressure := some b } =
        classifySpecs s { blood_pressure := some b }) ∧
    (∀ s : Settings,
      classifySpecs s { heartRate := some 0 } = classifySpecs s { heart_rate := some 0 }) := by
  refine ⟨fun s v hv => ⟨?_, ?_, ?_⟩, fun s b => ?_, fun s => ?_⟩
  · show hrAlerts s (if v = 0 then 0 else v) ++ spo2Alerts s 100 ++ bpAlerts s 120 80 ++
        tempAlerts s 37 ++ respAlerts s 16 ++ sensorAlerts (if v = 0 then 0 else v) 100 =
      hrAlerts s v ++ spo2Alerts s 100 ++ bpAlerts s 120 80 ++ tempAlerts s 37 ++
        respAlerts s 16 ++ sensorAlerts v 100
    rw [if_neg hv]
  · show hrAlerts s 0 ++ spo2Alerts s (if v = 0 then 100 else v) ++ bpAlerts s 120 80 ++
        tempAlerts s 37 ++ respAlerts s 16 ++ sensorAlerts 0 (if v = 0 then 100 else v) =
      hrAlerts s 0 ++ spo2Alerts s v ++ bpAlerts s 120 80 ++ tempAlerts s 37 ++
        respAlerts s 16 ++ sensorAlerts 0 v
    rw [if_neg hv]
  · show hrAlerts s 0 ++ spo2Alerts s 100 ++ bpAlerts s 120 80 ++ tempAlerts s 37 ++
        respAlerts s (if v = 0 then 16 else v) ++ sensorAlerts 0 100 =
      hrAlerts s 0 ++ spo2Alerts s 100 ++ bpAlerts s 120 80 ++ tempAlerts s 37 ++
        respAlerts s v ++ sensorAlerts 0 100
    rw [if_neg hv]
  · rcases b with ⟨_ | sv, _ | dv⟩ <;> rfl
  · show hrAlerts s (if (0 : ℚ) = 0 then 0 else 0) ++ spo2Alerts s 100 ++
        bpAlerts s 120 80 ++ tempAlerts s 37 ++ respAlerts s 16 ++
        sensorAlerts (if (0 : ℚ) = 0 then 0 else 0) 100 =
      hrAlerts s 0 ++ spo2Alerts s 100 ++ bpAlerts s 120 80 ++ tempAlerts s 37 ++
        respAlerts s 16 ++ sensorAlerts 0 100
    rw [if_pos rfl]

/-- C3 witness: the nonzero-value equivalence evaluated at SpO2 91 on the
default thresholds. -/
theorem claim_C3_witness :
    (91 : ℚ) ≠ 0 ∧
    classifySpecs defaultSettings { spO2 := some 91 } =
      classifySpecs defaultSettings { spo2 := some 91 } :=
  ⟨by norm_num, (claim_C3.1 defaultSettings 91 (by norm_num)).2.1⟩

/-- C4: the claim is refuted on the code: a heart rate exactly equal to the
high-critical boundary (120 on the default thresholds) does trigger the
critical tachycardia alert, because the comparisons are non-strict. -/
theorem claim_C4_counterexample :
    ∃ a ∈ classifySpecs defaultSettings readingHrBoundary,
      a.type = AlertType.TACHYCARDIA ∧ a.severity = AlertSeverity.CRITICAL ∧
      a.vital_value = 120 ∧ a.threshold = 120 := by
  decide

/-- C4 (amended): every threshold comparison in the rule engine is a
non-strict inequality against its fixed boundary: a reading value exactly
equal to a boundary does trigger that threshold, on every rule of every
channel. -/
theorem claim_C4 (s : Settings) (hs : s.WellOrdered) :
    (∃ a ∈ hrAlerts s s.hr_high_critical, a.type = AlertType.TACHYCARDIA ∧
      a.severity = AlertSeverity.CRITICAL ∧ a.vital_value = s.hr_high_critical ∧
      a.threshold = s.hr_high_critical) ∧
    (∃ a ∈ hrAlerts s s.hr_high_warning, a.type = AlertType.TACHYCARDIA ∧
      a.severity = AlertSeverity.WARNING ∧ a.vital_value = s.hr_high_warning ∧
      a.threshold = s.hr_high_warning) ∧
    (∃ a ∈ hrAlerts s s.hr_low_critical, a.type = AlertType.BRADYCARDIA ∧
      a.severity = AlertSeverity.CRITICAL ∧ a.vital_value = s.hr_low_critical ∧
      a.threshold = s.hr_low_critical) ∧
    (∃ a ∈ hrAlerts s s.hr_low_warning, a.type = AlertType.BRADYCARDIA ∧
      a.severity = AlertSeverity.WARNING ∧ a.vital_value = s.hr_low_warning ∧
      a.threshold = s.hr_low_warning) ∧
    (∃ a ∈ spo2Alerts s s.spo2_critical, a.type = AlertType.HYPOXIA ∧
      a.severity = AlertSeverity.CRITICAL ∧ a.vital_value = s.spo2_critical ∧
      a.threshold = s.spo2_critical) ∧
    (∃ a ∈ spo2Alerts s s.spo2_warning, a.type = AlertType.HYPOXIA ∧
      a.severity = AlertSeverity.WARNING ∧ a.vital_value = s.spo2_warning ∧
      a.threshold = s.spo2_warning) ∧
    (∃ a ∈ bpAlerts s s.bp_systolic_critical 80, a.type = AlertType.HYPERTENSIVE_CRISIS ∧
      a.severity = AlertSeverity.CRITICAL ∧ a.vital_value = s.bp_systolic_critical ∧
      a.threshold = s.bp_systolic_critical) ∧
    (∃ a ∈ bpAlerts s s.bp_systolic_warning 80, a.type = AlertType.HYPERTENSIVE_CRISIS ∧
      a.severity = AlertSeverity.WARNING ∧ a.vital_value = s.bp_systolic_warning ∧
      a.threshold = s.bp_systolic_warning) ∧
    (∃ a ∈ bpAlerts s s.bp_systolic_low_critical 80, a.type = AlertType.HYPOTENSION ∧
      a.severity = AlertSeverity.CRITICAL ∧ a.vital_value = s.bp_systolic_low_critical ∧
      a.threshold = s.bp_systolic_low_critical) ∧
    (∃ a ∈ tempAlerts s s.temp_critical, a.type = AlertType.FEVER ∧
      a.severity = AlertSeverity.CRITICAL ∧ a.vital_value = s.temp_critical ∧
      a.threshold = s.temp_critical) ∧
    (∃ a ∈ tempAlerts s s.temp_warning, a.type = AlertType.FEVER ∧
      a.severity = AlertSeverity.WARNING ∧ a.vital_value = s.temp_warning ∧
      a.threshold = s.temp_warning) ∧
    (∃ a ∈ tempAlerts s s.temp_low_critical, a.type = AlertType.HYPOTHERMIA ∧
      a.severity = AlertSeverity.CRITICAL ∧ a.vital_value = s.temp_low_critical ∧
      a.threshold = s.temp_low_critical) ∧
    (∃ a ∈ respAlerts s s.resp_high_critical, a.type = AlertType.TACHYPNEA ∧
      a.severity = AlertSeverity.CRITICAL ∧ a.vital_value = s.resp_high_critical ∧
      a.threshold = s.resp_high_critical) ∧
    (∃ a ∈ respAlerts s s.resp_high_warning, a.type = AlertType.TACHYPNEA ∧
      a.severity = AlertSeverity.WARNING ∧ a.vital_value = s.resp_high_warning ∧
      a.threshold = s.resp_high_warning) ∧
    (∃ a ∈ respAlerts s s.resp_low_critical, a.type = AlertType.BRADYPNEA ∧
      a.severity = AlertSeverity.CRITICAL ∧ a.vital_value = s.resp_low_critical ∧
      a.threshold = s.resp_low_critical) := by
  obtain ⟨h1, h2, h3, h4, h5, h6, h7, h8, h9, h10, h11, h12, h13, h14, h15, h16, h17,
    h18, h19⟩ := hs
  refine ⟨?_, ?_, ?_, ?_, ?_, ?_, ?_, ?_, ?_, ?_, ?_, ?_, ?_, ?_, ?_⟩
  · unfold hrAlerts
    rw [if_pos (le_refl _)]
    exact ⟨_, List.mem_append_left _ (List.mem_cons_self _ _), rfl, rfl, rfl, rfl⟩
  · unfold hrAlerts
    rw [if_neg (not_le.mpr h4), if_pos (le_refl _)]
    exact ⟨_, List.mem_append_left _ (List.mem_cons_self _ _), rfl, rfl, rfl, rfl⟩
  · unfold hrAlerts
    rw [if_pos (show s.hr_low_critical ≤ s.hr_low_critical ∧ s.hr_low_critical > 0 from
      ⟨le_refl _, h1⟩)]
    exact ⟨_, List.mem_append_right _ (List.mem_cons_self _ _), rfl, rfl, rfl, rfl⟩
  · unfold hrAlerts
    rw [if_neg (show ¬(s.hr_low_warning ≤ s.hr_low_critical ∧ s.hr_low_warning > 0) from
        fun h => absurd h.1 (not_le.mpr h2)),
      if_pos (show s.hr_low_warning ≤ s.hr_low_warning ∧ s.hr_low_warning > 0 from
        ⟨le_refl _, by linarith⟩)]
    exact ⟨_, List.mem_append_right _ (List.mem_cons_self _ _), rfl, rfl, rfl, rfl⟩
  · unfold spo2Alerts
    rw [if_pos (le_refl _)]
    exact ⟨_, List.mem_cons_self _ _, rfl, rfl, rfl, rfl⟩
  · unfold spo2Alerts
    rw [if_neg (not_le.mpr h6), if_pos (le_refl _)]
    exact ⟨_, List.mem_cons_self _ _, rfl, rfl, rfl, rfl⟩
  · unfold bpAlerts
    rw [if_pos (le_refl _)]
    exact ⟨_, List.mem_append_left _ (List.mem_cons_self _ _), rfl, rfl, rfl, rfl⟩
  · unfold bpAlerts
    rw [if_neg (not_le.mpr h11), if_pos (le_refl _)]
    exact ⟨_, List.mem_append_left _ (List.mem_cons_self _ _), rfl, rfl, rfl, rfl⟩
  · unfold bpAlerts
    rw [if_pos (show s.bp_systolic_low_critical ≤ s.bp_systolic_low_critical ∧
      s.bp_systolic_low_critical > 0 from ⟨le_refl _, h8⟩)]
    exact ⟨_, List.mem_append_right _ (List.mem_cons_self _ _), rfl, rfl, rfl, rfl⟩
  · unfold tempAlerts
    rw [if_pos (le_refl _)]
    exact ⟨_, List.mem_append_left _ (List.mem_cons_self _ _), rfl, rfl, rfl, rfl⟩
  · unfold tempAlerts
    rw [if_neg (not_le.mpr h15), if_pos (le_refl _)]
    exact ⟨_, List.mem_append_left _ (List.mem_cons_self _ _), rfl, rfl, rfl, rfl⟩
  · unfold tempAlerts
    rw [if_pos (show s.temp_low_critical ≤ s.temp_low_critical ∧
      s.temp_low_critical > 0 from ⟨le_refl _, h12⟩)]
    exact ⟨_, List.mem_append_right _ (List.mem_cons_self _ _), rfl, rfl, rfl, rfl⟩
  · unfold respAlerts
    rw [if_pos (le_refl _)]
    exact ⟨_, List.mem_append_left _ (List.mem_cons_self _ _), rfl, rfl, rfl, rfl⟩
  · unfold respAlerts
    rw [if_neg (not_le.mpr h19), if_pos (le_refl _)]
    exact ⟨_, List.mem_append_left _ (List.mem_cons_self _ _), rfl, rfl, rfl, rfl⟩
  · unfold respAlerts
    rw [if_pos (show s.resp_low_critical ≤ s.resp_low_critical ∧
      s.resp_low_critical > 0 from ⟨le_refl _, h16⟩)]
    exact ⟨_, List.mem_append_right _ (List.mem_cons_self _ _), rfl, rfl, rfl, rfl⟩

/-- C4 witness: equality at the high-critical heart-rate boundary of the
default thresholds triggers the critical tachycardia rule. -/
theorem claim_C4_witness :
    defaultSettings.WellOrdered ∧
    ∃ a ∈ hrAlerts defaultSettings defaultSettings.hr_high_critical,
      a.type = AlertType.TACHYCARDIA ∧ a.severity = AlertSeverity.CRITICAL ∧
      a.vital_value = defaultSettings.hr_high_critical ∧
      a.threshold = defaultSettings.hr_high_critical :=
  ⟨by decide, (claim_C4 defaultSettings (by decide)).1⟩

/-- Reading back the history just written for a subject. -/
theorem getHistory_setHistory (st : List (String × List Alert)) (pid : String)
    (h : List Alert) : getHistory (setHistory st pid h) pid = h := by
  induction st with
  | nil => simp [setHistory, getHistory]
  | cons e rest ih =>
      obtain ⟨p, als⟩ := e
      by_cases hp : p = pid
      · simp [setHistory, getHistory, hp]
      · simp [setHistory, getHistory, hp, ih]

/-- The head of a truncated prepend is the head of the nonempty new batch. -/
theorem head?_take_append (b l : List Alert) (hb : b ≠ []) :
    ((b ++ l).take 50).head? = b.head? := by
  cases b with
  | nil => exact absurd rfl hb
  | cons x xs => rfl

/-- Invariant of a sequence of accumulation steps for one subject: the
history stays within the cap, an all-empty batch sequence leaves it
untouched, and otherwise its head is the head of the last nonempty batch. -/
theorem accumulate_fold_inv (pid : String) (batches : List (List Alert)) :
    ∀ store, (getHistory store pid).length ≤ 50 →
      ((getHistory (List.foldl (fun st b => accumulate pid b st) store batches) pid).length
        ≤ 50) ∧
      (((batches.filter fun x => !x.isEmpty) = []) →
        getHistory (List.foldl (fun st b => accumulate pid b st) store batches) pid =
          getHistory store pid) ∧
      (∀ b0, ((batches.filter fun x => !x.isEmpty).getLast? = some b0) →
        (getHistory (List.foldl (fun st b => accumulate pid b st) store batches) pid).head? =
          b0.head?) := by
  induction batches with
  | nil =>
      intro store h
      exact ⟨h, fun _ => rfl, fun b0 hb0 => by simp at hb0⟩
  | cons b rest ih =>
      intro store h
      by_cases hb : b.isEmpty
      · have hacc : accumulate pid b store = store := by simp [accumulate, hb]
        have hfilt : ((b :: rest).filter fun x => !x.isEmpty) =
            rest.filter fun x => !x.isEmpty := by simp [List.filter_cons, hb]
        simp only [List.foldl_cons, hacc, hfilt]
        exact ih store h
      · have hbne : b ≠ [] := fun hnil => by simp [hnil] at hb
        have hacc : accumulate pid b store =
            setHistory store pid ((b ++ getHistory store pid).take 50) := by
          simp [accumulate, hb]
        have hget := getHistory_setHistory store pid ((b ++ getHistory store pid).take 50)
        have hih := ih (setHistory store pid ((b ++ getHistory store pid).take 50))
          (by rw [hget]; exact List.length_take_le _ _)
        have hfilt : ((b :: rest).filter fun x => !x.isEmpty) =
            b :: (rest.filter fun x => !x.isEmpty) := by simp [List.filter_cons, hb]
        simp only [List.foldl_cons, hacc, hfilt]
        refine ⟨hih.1, fun hcontra => by simp at hcontra, fun b0 hb0 => ?_⟩
        cases hrf : (rest.filter fun x => !x.isEmpty) with
        | nil =>
            rw [hrf, List.getLast?_singleton] at hb0
            have hb0b : b0 = b := by injection hb0 with h2; exact h2.symm
            rw [hih.2.1 hrf, hget, hb0b]
            exact head?_take_append b _ hbne
        | cons c cs =>
            rw [hrf, List.getLast?_cons_cons] at hb0
            exact hih.2.2 b0 (by rw [hrf]; exact hb0)

/-- C5: starting from any store whose history for the subject is within the
cap, after any sequence of accumulation steps the live history has length at
most 50, and its first element is the first alert of the most recently
accumulated nonempty batch (batches are prepended whole, in rule-engine
emission order, then truncated to the cap). -/
theorem claim_C5 (pid : String) (batches : List (List Alert))
    (store : List (String × List Alert)) (h : (getHistory store pid).length ≤ 50) :
    ((getHistory (List.foldl (fun st b => accumulate pid b st) store batches) pid).length
      ≤ 50) ∧
    (∀ b0, ((batches.filter fun x => !x.isEmpty).getLast? = some b0) →
      (getHistory (List.foldl (fun st b => accumulate pid b st) store batches) pid).head? =
        b0.head?) :=
  ⟨(accumulate_fold_inv pid batches store h).1, (accumulate_fold_inv pid batches store h).2.2⟩

/-- C5 witness: two singleton batches accumulated into an empty store leave a
history within the cap headed by the most recent alert. -/
theorem claim_C5_witness :
    ((getHistory (List.foldl (fun st b => accumulate "P002" b st) []
      [[alertBatch1], [alertBatch2]]) "P002").length ≤ 50) ∧
    (getHistory (List.foldl (fun st b => accumulate "P002" b st) []
      [[alertBatch1], [alertBatch2]]) "P002").head? = some alertBatch2 :=
  ⟨(claim_C5 "P002" [[alertBatch1], [alertBatch2]] [] (by decide)).1,
   (claim_C5 "P002" [[alertBatch1], [alertBatch2]] [] (by decide)).2 [alertBatch2] (by decide)⟩

/-- Unfolding the store traversal order one patient at a time. -/
theorem allAlerts_cons (p : String) (als : List Alert)
    (rest : List (String × List Alert)) :
    allAlerts ((p, als) :: rest) = als ++ allAlerts rest := by
  simp [allAlerts]

/-- The inner acknowledgment loop with no matching id reports false and
returns the history unchanged. -/
theorem ackList_not_found (aid : String) (l : List Alert) (h : ∀ a ∈ l, a.id ≠ aid) :
    ackList aid l = (false, l) := by
  induction l with
  | nil => rfl
  | cons a rest ih =>
      have ha : a.id ≠ aid := h a (List.mem_cons_self _ _)
      simp only [ackList, if_neg ha]
      rw [ih fun x hx => h x (List.mem_cons_of_mem _ hx)]

/-- The inner acknowledgment loop with a matching id reports true and flips
exactly the first match, leaving every other element and the length
unchanged. -/
theorem ackList_found (aid : String) (l : List Alert) (h : ∃ a ∈ l, a.id = aid) :
    (ackList aid l).1 = true ∧ (ackList aid l).2.length = l.length ∧
    ∃ pre a post, l = pre ++ a :: post ∧ (∀ x ∈ pre, x.id ≠ aid) ∧ a.id = aid ∧
      (ackList aid l).2 = pre ++ { a with acknowledged := true } :: post := by
  induction l with
  | nil =>
      obtain ⟨a, ha, -⟩ := h
      exact absurd ha (List.not_mem_nil _)
  | cons b rest ih =>
      by_cases hb : b.id = aid
      · simp only [ackList, if_pos hb]
        refine ⟨by simp, by simp,
          ⟨[], b, rest, rfl, fun x hx => absurd hx (List.not_mem_nil x), hb, by simp⟩⟩
      · have hrest : ∃ a ∈ rest, a.id = aid := by
          obtain ⟨a, ha, haid⟩ := h
          rcases List.mem_cons.mp ha with rfl | hmem
          · exact absurd haid hb
          · exact ⟨a, hmem, haid⟩
        obtain ⟨h1, h2, pre, a, post, hsplit, hpre, haid, hres⟩ := ih hrest
        simp only [ackList, if_neg hb]
        refine ⟨h1, by simp [h2], b :: pre, a, post, by rw [List.cons_append, ← hsplit], ?_,
          haid, by rw [List.cons_append, ← hres]⟩
        intro x hx
        rcases List.mem_cons.mp hx with rfl | hmem
        · exact hb
        · exact hpre x hmem

/-- The outer acknowledgment loop with no matching id anywhere reports false
and returns the store unchanged. -/
theorem ackStore_not_found (aid : String) (st : List (String × List Alert))
    (h : ∀ a ∈ allAlerts st, a.id ≠ aid) : ackStore aid st = (false, st) := by
  induction st with
  | nil => rfl
  | cons e rest ih =>
      obtain ⟨p, als⟩ := e
      have hals : ∀ a ∈ als, a.id ≠ aid := fun a ha =>
        h a (by rw [allAlerts_cons]; exact List.mem_append_left _ ha)
      have hrest : ∀ a ∈ allAlerts rest, a.id ≠ aid := fun a ha =>
        h a (by rw [allAlerts_cons]; exact List.mem_append_right _ ha)
      simp only [ackStore]
      rw [ackList_not_found aid als hals, if_neg (by simp : ¬((false, als).1 = true)),
        ih hrest]

/-- The outer acknowledgment loop with a matching id reports true, keeps the
subject keys and per-subject history lengths, and flips exactly the first
match in traversal order. -/
theorem ackStore_found (aid : String) (st : List (String × List Alert))
    (h : ∃ a ∈ allAlerts st, a.id = aid) :
    (ackStore aid st).1 = true ∧
    ((ackStore aid st).2.map Prod.fst = st.map Prod.fst) ∧
    (((ackStore aid st).2.map fun pr => pr.2.length) = st.map fun pr => pr.2.length) ∧
    ∃ pre a post, allAlerts st = pre ++ a :: post ∧ (∀ x ∈ pre, x.id ≠ aid) ∧
      a.id = aid ∧
      allAlerts (ackStore aid st).2 = pre ++ { a with acknowledged := true } :: post := by
  induction st with
  | nil => simp [allAlerts] at h
  | cons e rest ih =>
      obtain ⟨p, als⟩ := e
      by_cases hals : ∃ a ∈ als, a.id = aid
      · obtain ⟨h1, h2, pre, a, post, hsplit, hpre, haid, hres⟩ := ackList_found aid als hals
        simp only [ackStore]
        rw [if_pos h1]
        refine ⟨rfl, rfl, by simp [h2], pre, a, post ++ allAlerts rest, ?_, hpre, haid, ?_⟩
        · rw [allAlerts_cons, hsplit, List.append_assoc, List.cons_append]
        · rw [allAlerts_cons, hres, List.append_assoc, List.cons_append]
      · push_neg at hals
        have hrF := ackList_not_found aid als hals
        have hrest : ∃ a ∈ allAlerts rest, a.id = aid := by
          obtain ⟨a, ha, haid⟩ := h
          rw [allAlerts_cons] at ha
          rcases List.mem_append.mp ha with hin | hin
          · exact absurd haid (hals a hin)
          · exact ⟨a, hin, haid⟩
        obtain ⟨h1, h2, h3, pre, a, post, hsplit, hpre, haid, hres⟩ := ih hrest
        simp only [ackStore]
        rw [hrF, if_neg (by simp : ¬((false, als).1 = true))]
        refine ⟨h1, by simp [h2], by simp [h3], als ++ pre, a, post, ?_, ?_, haid, ?_⟩
        · rw [allAlerts_cons, hsplit, List.append_assoc]
        · intro x hx
          rcases List.mem_append.mp hx with hin | hin
          · exact hals x hin
          · exact hpre x hin
        · rw [allAlerts_cons, hres, List.append_assoc]

/-- C6: acknowledging an id absent from every history returns false and
leaves the engine unchanged; acknowledging a present id returns true, keeps
every subject key and history length, and flips the acknowledged flag of
exactly the first alert with that id in traversal order, changing nothing
else. -/
theorem claim_C6 (aid : String) (e : AlertEngine) :
    ((∀ a ∈ allAlerts e.active_alerts, a.id ≠ aid) →
      acknowledge_alert aid e = (false, e)) ∧
    (∀ a0 ∈ allAlerts e.active_alerts, a0.id = aid →
      (acknowledge_alert aid e).1 = true ∧
      ((acknowledge_alert aid e).2.active_alerts.map Prod.fst =
        e.active_alerts.map Prod.fst) ∧
      (((acknowledge_alert aid e).2.active_alerts.map fun pr => pr.2.length) =
        e.active_alerts.map fun pr => pr.2.length) ∧
      ∃ pre a post, allAlerts e.active_alerts = pre ++ a :: post ∧
        (∀ x ∈ pre, x.id ≠ aid) ∧ a.id = aid ∧
        allAlerts (acknowledge_alert aid e).2.active_alerts =
          pre ++ { a with acknowledged := true } :: post) := by
  constructor
  · intro h
    unfold acknowledge_alert
    rw [ackStore_not_found aid e.active_alerts h]
  · intro a0 ha0 haid
    exact ackStore_found aid e.active_alerts ⟨a0, ha0, haid⟩

/-- C6 witness: on the two-alert engine, acknowledging an absent id changes
nothing, and acknowledging the id of the second alert succeeds. -/
theorem claim_C6_witness :
    acknowledge_alert "ALT-none" engineAck = (false, engineAck) ∧
    (acknowledge_alert "ALT-20240101-00006" engineAck).1 = true :=
  ⟨(claim_C6 "ALT-none" engineAck).1 (by decide),
   ((claim_C6 "ALT-20240101-00006" engineAck).2 alertAck2 (by decide) rfl).1⟩

/-- Stable descending insertion permutes the inserted element in. -/
theorem insertDesc_perm (a : Alert) (l : List Alert) : (insertDesc a l).Perm (a :: l) := by
  induction l with
  | nil => exact List.Perm.refl _
  | cons b t ih =>
      unfold insertDesc
      by_cases hc : a.timestamp.data < b.timestamp.data
      · rw [if_pos hc]
        exact (ih.cons b).trans (List.Perm.swap a b t)
      · rw [if_neg hc]

/-- The stable descending sort permutes its input. -/
theorem sortDesc_perm (l : List Alert) : (sortDesc l).Perm l := by
  induction l with
  | nil => exact List.Perm.refl _
  | cons a t ih =>
      show (insertDesc a (sortDesc t)).Perm (a :: t)
      exact (insertDesc_perm a (sortDesc t)).trans (ih.cons a)

/-- Inserting into a timestamp-descending list keeps it descending. -/
theorem pairwise_insertDesc (a : Alert) (l : List Alert)
    (h : l.Pairwise fun x y => ¬x.timestamp.data < y.timestamp.data) :
    (insertDesc a l).Pairwise fun x y => ¬x.timestamp.data < y.timestamp.data := by
  induction l with
  | nil => simp [insertDesc]
  | cons b t ih =>
      rw [List.pairwise_cons] at h
      obtain ⟨hb, ht⟩ := h
      unfold insertDesc
      by_cases hc : a.timestamp.data < b.timestamp.data
      · rw [if_pos hc, List.pairwise_cons]
        refine ⟨fun x hx => ?_, ih ht⟩
        rcases List.mem_cons.mp ((insertDesc_perm a t).mem_iff.mp hx) with rfl | hmem2
        · exact lt_asymm hc
        · exact hb x hmem2
      · rw [if_neg hc, List.pairwise_cons]
        refine ⟨fun x hx => ?_, List.pairwise_cons.mpr ⟨hb, ht⟩⟩
        rcases List.mem_cons.mp hx with rfl | hmem2
        · exact hc
        · exact not_lt.mpr (le_trans (le_of_not_lt (hb x hmem2)) (le_of_not_lt hc))

/-- The stable descending sort is timestamp-descending. -/
theorem sortDesc_sorted (l : List Alert) :
    (sortDesc l).Pairwise fun x y => ¬x.timestamp.data < y.timestamp.data := by
  induction l with
  | nil => simp [sortDesc]
  | cons a t ih => exact pairwise_insertDesc a (sortDesc t) ih

/-- Every survivor of deduplication came from the input, has an id outside
the seen set, and a nonempty id. -/
theorem mem_dedupeById (l : List Alert) : ∀ seen a, a ∈ dedupeById l seen →
    a ∈ l ∧ a.id ∉ seen ∧ a.id ≠ "" := by
  induction l with
  | nil =>
      intro seen a ha
      simp [dedupeById] at ha
  | cons b rest ih =>
      intro seen a ha
      unfold dedupeById at ha
      by_cases hc : b.id ≠ "" ∧ b.id ∉ seen
      · rw [if_pos hc] at ha
        rcases List.mem_cons.mp ha with rfl | hmem
        · exact ⟨List.mem_cons_self _ _, hc.2, hc.1⟩
        · obtain ⟨h1, h2, h3⟩ := ih (b.id :: seen) a hmem
          exact ⟨List.mem_cons_of_mem _ h1, fun hs => h2 (List.mem_cons_of_mem _ hs), h3⟩
      · rw [if_neg hc] at ha
        obtain ⟨h1, h2, h3⟩ := ih seen a ha
        exact ⟨List.mem_cons_of_mem _ h1, h2, h3⟩

/-- Deduplication leaves pairwise-distinct ids. -/
theorem dedupe_ids_nodup (l : List Alert) : ∀ seen,
    ((dedupeById l seen).map Alert.id).Nodup := by
  induction l with
  | nil =>
      intro seen
      simp [dedupeById]
  | cons b rest ih =>
      intro seen
      unfold dedupeById
      by_cases hc : b.id ≠ "" ∧ b.id ∉ seen
      · rw [if_pos hc, List.map_cons, List.nodup_cons]
        refine ⟨fun hmem => ?_, ih _⟩
        obtain ⟨x, hx, hxid⟩ := List.mem_map.mp hmem
        obtain ⟨-, h2, -⟩ := mem_dedupeById rest _ x hx
        exact h2 (by rw [hxid]; exact List.mem_cons_self _ _)
      · rw [if_neg hc]
        exact ih seen

/-- First occurrence wins: a surviving alert whose id also occurs in the
first operand of the concatenation is itself from the first operand. -/
theorem dedupe_prefers (l1 l2 : List Alert) : ∀ seen a, a ∈ dedupeById (l1 ++ l2) seen →
    (∃ m ∈ l1, m.id = a.id) → a ∈ l1 := by
  induction l1 with
  | nil =>
      intro seen a ha hm
      obtain ⟨m, hm1, -⟩ := hm
      exact absurd hm1 (List.not_mem_nil m)
  | cons b rest ih =>
      intro seen a ha hm
      rw [List.cons_append] at ha
      unfold dedupeById at ha
      by_cases hc : b.id ≠ "" ∧ b.id ∉ seen
      · rw [if_pos hc] at ha
        rcases List.mem_cons.mp ha with rfl | hmem
        · exact List.mem_cons_self _ _
        · obtain ⟨m, hmm, hmid⟩ := hm
          rcases List.mem_cons.mp hmm with rfl | hmm2
          · obtain ⟨-, h2, -⟩ := mem_dedupeById _ _ a hmem
            exact absurd (by rw [← hmid]; exact List.mem_cons_self _ _) h2
          · exact List.mem_cons_of_mem _ (ih _ a hmem ⟨m, hmm2, hmid⟩)
      · rw [if_neg hc] at ha
        obtain ⟨m, hmm, hmid⟩ := hm
        rcases List.mem_cons.mp hmm with rfl | hmm2
        · obtain ⟨-, h2, h3⟩ := mem_dedupeById _ _ a ha
          rcases not_and_or.mp hc with hbe | hbs
          · have : a.id = "" := by rw [← hmid]; exact not_not.mp hbe
            exact absurd this h3
          · have : a.id ∈ seen := by rw [← hmid]; exact not_not.mp hbs
            exact absurd this h2
        · exact List.mem_cons_of_mem _ (ih _ a ha ⟨m, hmm2, hmid⟩)

/-- C7: the merged query is bounded by the limit, timestamp-descending, free
of duplicate ids, drawn from the concatenation of live before durable with a
live copy preferred on an id collision; and on the concrete scenario of live
A1 versus durable A1 and A2, it returns exactly the live A1 then A2. -/
theorem claim_C7 :
    (∀ (memory mongo : List Alert) (lim : Nat),
      (mergedQuery memory mongo lim).length ≤ lim ∧
      (mergedQuery memory mongo lim).Pairwise
        (fun x y => ¬x.timestamp.data < y.timestamp.data) ∧
      ((mergedQuery memory mongo lim).map Alert.id).Nodup ∧
      (∀ a ∈ mergedQuery memory mongo lim, a ∈ memory ++ mongo) ∧
      (∀ a ∈ mergedQuery memory mongo lim,
        (∃ m ∈ memory, m.id = a.id) → a ∈ memory)) ∧
    mergedQuery [alertLiveA1] [alertDbA1, alertDbA2] 10 = [alertLiveA1, alertDbA2] := by
  refine ⟨fun memory mongo lim => ⟨?_, ?_, ?_, ?_, ?_⟩, by decide⟩
  · exact List.length_take_le _ _
  · exact List.Pairwise.sublist (List.take_sublist _ _) (sortDesc_sorted _)
  · have hd := dedupe_ids_nodup (memory ++ mongo) []
    have hperm := (sortDesc_perm (dedupeById (memory ++ mongo) [])).map Alert.id
    have hn := hperm.nodup_iff.mpr hd
    show (((sortDesc (dedupeById (memory ++ mongo) [])).take lim).map Alert.id).Nodup
    rw [List.map_take]
    exact List.Nodup.sublist (List.take_sublist _ _) hn
  · intro a ha
    have h1 := (List.take_sublist lim (sortDesc (dedupeById (memory ++ mongo) []))).subset ha
    have h2 := (sortDesc_perm (dedupeById (memory ++ mongo) [])).mem_iff.mp h1
    exact (mem_dedupeById _ _ a h2).1
  · intro a ha hm
    have h1 := (List.take_sublist lim (sortDesc (dedupeById (memory ++ mongo) []))).subset ha
    have h2 := (sortDesc_perm (dedupeById (memory ++ mongo) [])).mem_iff.mp h1
    exact dedupe_prefers memory mongo [] a h2 hm

/-- C7 witness: the live-preference clause applied to the concrete scenario:
the live copy of A1 is the one the merged result keeps. -/
theorem claim_C7_witness :
    alertLiveA1 ∈ mergedQuery [alertLiveA1] [alertDbA1, alertDbA2] 10 ∧
    alertLiveA1 ∈ ([alertLiveA1] : List Alert) := by
  have hmem : alertLiveA1 ∈ mergedQuery [alertLiveA1] [alertDbA1, alertDbA2] 10 := by decide
  exact ⟨hmem, (claim_C7.1 [alertLiveA1] [alertDbA1, alertDbA2] 10).2.2.2.2 alertLiveA1 hmem
    ⟨alertLiveA1, List.mem_cons_self _ _, rfl⟩⟩

/-- An unknown subject has an empty history. -/
theorem getHistory_eq_nil (st : List (String × List Alert)) (pid : String)
    (h : pid ∉ st.map Prod.fst) : getHistory st pid = [] := by
  induction st with
  | nil => rfl
  | cons e rest ih =>
      obtain ⟨p, als⟩ := e
      have hp : p ≠ pid := fun hpe => h (by rw [hpe]; exact List.mem_cons_self _ _)
      show (if p = pid then als else getHistory rest pid) = []
      rw [if_neg hp]
      exact ih fun hm => h (List.mem_cons_of_mem _ hm)

/-- Writing the history of a fresh subject appends its key at the end of the
store, as inserting a new key into a Python dict does. -/
theorem setHistory_keys_absent (st : List (String × List Alert)) (pid : String)
    (hist : List Alert) (h : pid ∉ st.map Prod.fst) :
    (setHistory st pid hist).map Prod.fst = st.map Prod.fst ++ [pid] := by
  induction st with
  | nil => rfl
  | cons e rest ih =>
      obtain ⟨p, als⟩ := e
      have hp : p ≠ pid := fun hpe => h (by rw [hpe]; exact List.mem_cons_self _ _)
      show ((if p = pid then (p, hist) :: rest else (p, als) :: setHistory rest pid hist).map
        Prod.fst) = (p :: rest.map Prod.fst) ++ [pid]
      rw [if_neg hp, List.map_cons, ih fun hm => h (List.mem_cons_of_mem _ hm)]
      rfl

/-- In a store whose entries all hold five alerts, every known subject reads
back a history of five alerts. -/
theorem getHistory_len5 (st : List (String × List Alert))
    (h5 : ∀ pr ∈ st, (Prod.snd pr).length = 5) :
    ∀ pid ∈ st.map Prod.fst, (getHistory st pid).length = 5 := by
  induction st with
  | nil =>
      intro pid hpid
      exact absurd hpid (List.not_mem_nil pid)
  | cons e rest ih =>
      obtain ⟨p, als⟩ := e
      intro pid hpid
      show (if p = pid then als else getHistory rest pid).length = 5
      by_cases hp : p = pid
      · rw [if_pos hp]
        exact h5 (p, als) (List.mem_cons_self _ _)
      · rw [if_neg hp]
        have hmem : pid ∈ rest.map Prod.fst := by
          rcases List.mem_cons.mp hpid with hpe | hm
          · exact absurd hpe.symm hp
          · exact hm
        exact ih (fun pr hpr => h5 pr (List.mem_cons_of_mem _ hpr)) pid hmem

/-- Accumulating a nonempty batch for a fresh subject appends its key. -/
theorem accumulate_keys_absent (pid : String) (alerts : List Alert)
    (st : List (String × List Alert)) (hnot : pid ∉ st.map Prod.fst)
    (hne : alerts ≠ []) :
    (accumulate pid alerts st).map Prod.fst = st.map Prod.fst ++ [pid] := by
  unfold accumulate
  rw [if_neg (by simpa [List.isEmpty_iff] using hne)]
  exact setHistory_keys_absent st pid _ hnot

/-- C8: the claim is refuted on the code: a freshly constructed engine is not
empty — the constructor seeds five alerts for patient P001 (and each of
P001-P010). -/
theorem claim_C8_counterexample :
    get_patient_alerts
      (seedEngine (fun _ _ => 0) (fun _ _ => 80) (fun _ _ => "t") "20240101") "P001" ≠ [] := by
  decide

/-- C8 (amended): a freshly constructed engine holds exactly the ten seeded
subjects P001-P010, each with five alerts, and an empty history for every
other subject; for subjects outside the store, the history entry is created
lazily: an analyze call producing no alerts leaves the store untouched, and
one producing alerts appends the new subject key. -/
theorem claim_C8 :
    (∀ (choose : Nat → Nat → Fin 6) (val : Nat → Nat → ℚ) (ts : Nat → Nat → String)
      (date : String),
      ((seedEngine choose val ts date).active_alerts.map Prod.fst =
        ["P001", "P002", "P003", "P004", "P005",
         "P006", "P007", "P008", "P009", "P010"]) ∧
      (∀ pid ∈ (seedEngine choose val ts date).active_alerts.map Prod.fst,
        (get_patient_alerts (seedEngine choose val ts date) pid).length = 5) ∧
      (∀ pid, pid ∉ (seedEngine choose val ts date).active_alerts.map Prod.fst →
        get_patient_alerts (seedEngine choose val ts date) pid = [])) ∧
    (∀ (s : Settings) (c : Clock) (pid : String) (v : Vitals) (e : AlertEngine),
      ((analyze_vitals s c pid v e).1 = [] →
        (analyze_vitals s c pid v e).2.active_alerts = e.active_alerts) ∧
      (pid ∉ e.active_alerts.map Prod.fst → (analyze_vitals s c pid v e).1 ≠ [] →
        (analyze_vitals s c pid v e).2.active_alerts.map Prod.fst =
          e.active_alerts.map Prod.fst ++ [pid])) := by
  constructor
  · intro choose val ts date
    refine ⟨rfl, ?_, ?_⟩
    · refine getHistory_len5 _ ?_
      intro pr hpr
      obtain ⟨i, hi, rfl⟩ := List.mem_map.mp hpr
      simp
    · intro pid hpid
      exact getHistory_eq_nil _ pid hpid
  · intro s c pid v e
    have hact : (analyze_vitals s c pid v e).2.active_alerts =
        accumulate pid (analyze_vitals s c pid v e).1 e.active_alerts := rfl
    constructor
    · intro h0
      rw [hact, h0]
      simp [accumulate]
    · intro hnot hne
      rw [hact]
      exact accumulate_keys_absent pid _ e.active_alerts hnot hne

/-- C8 witness: the seeded history of P001 has exactly five alerts, and an
unseeded subject has an empty history. -/
theorem claim_C8_witness :
    (get_patient_alerts
      (seedEngine (fun _ _ => 0) (fun _ _ => 80) (fun _ _ => "t") "20240101") "P001").length
      = 5 ∧
    get_patient_alerts
      (seedEngine (fun _ _ => 0) (fun _ _ => 80) (fun _ _ => "t") "20240101") "P999" = [] :=
  ⟨(claim_C8.1 (fun _ _ => 0) (fun _ _ => 80) (fun _ _ => "t") "20240101").2.1 "P001"
    (by decide),
   (claim_C8.1 (fun _ _ => 0) (fun _ _ => 80) (fun _ _ => "t") "20240101").2.2 "P999"
    (by decide)⟩

/-- The fueled digit expansion decodes back to its number once the fuel
covers it. -/
theorem ofDigits_digitsLE : ∀ fuel n : Nat, n ≤ fuel →
    Nat.ofDigits 10 (digitsLE fuel n) = n := by
  intro fuel
  induction fuel with
  | zero =>
      intro n hn
      interval_cases n
      rfl
  | succ f ih =>
      intro n hn
      unfold digitsLE
      by_cases h0 : n = 0
      · rw [if_pos h0, h0]
        rfl
      · rw [if_neg h0, Nat.ofDigits_cons, ih (n / 10) (by omega)]
        omega

/-- Every digit of the fueled expansion is below the base. -/
theorem digitsLE_lt : ∀ fuel n : Nat, ∀ d ∈ digitsLE fuel n, d < 10 := by
  intro fuel
  induction fuel with
  | zero =>
      intro n d hd
      simp [digitsLE] at hd
  | succ f ih =>
      intro n d hd
      unfold digitsLE at hd
      by_cases h0 : n = 0
      · rw [if_pos h0] at hd
        simp at hd
      · rw [if_neg h0] at hd
        rcases List.mem_cons.mp hd with rfl | hmem
        · omega
        · exact ih _ d hmem

/-- Every entry of the padded digit string is a digit. -/
theorem padDigits_lt (n : Nat) : ∀ d ∈ padDigits n, d < 10 := by
  intro d hd
  unfold padDigits at hd
  rcases List.mem_append.mp hd with hm | hm
  · rw [List.eq_of_mem_replicate hm]
    omega
  · exact digitsLE_lt n n d (List.mem_reverse.mp hm)

/-- Zero padding contributes nothing to the decoded value. -/
theorem ofDigits_replicate_zero (k : Nat) : Nat.ofDigits 10 (List.replicate k 0) = 0 := by
  induction k with
  | zero => rfl
  | succ m ih => rw [List.replicate_succ, Nat.ofDigits_cons, ih]

/-- Reading a digit character back as a number. -/
theorem digitChar_val (d : Nat) (hd : d < 10) : (Nat.digitChar d).toNat - 48 = d := by
  interval_cases d <;> rfl

/-- The padded sequence rendering decodes back to the counter value. -/
theorem decodePad_padSeq (n : Nat) : decodePad (padSeq n) = n := by
  unfold decodePad padSeq
  rw [List.map_map]
  have hmap : ((padDigits n).map ((fun c => c.toNat - 48) ∘ Nat.digitChar)) = padDigits n := by
    have hcong : ∀ d ∈ padDigits n,
        ((fun c : Char => c.toNat - 48) ∘ Nat.digitChar) d = id d := fun d hd =>
      digitChar_val d (padDigits_lt n d hd)
    rw [List.map_congr_left hcong, List.map_id]
  rw [hmap]
  unfold padDigits
  rw [List.reverse_append, List.reverse_reverse, List.reverse_replicate,
    Nat.ofDigits_append, ofDigits_replicate_zero]
  show Nat.ofDigits 10 (digitsLE n n) + 10 ^ _ * 0 = n
  rw [ofDigits_digitsLE n n (le_refl n)]
  omega

/-- The character data of a generated alert id. -/
theorem genAlertId_data (date : String) (n : Nat) :
    (genAlertId date n).data =
      ['A', 'L', 'T', '-'] ++ (date.data ++ ('-' :: padSeq n)) := by
  show ("ALT-" ++ date ++ "-" ++ String.mk (padSeq n)).data = _
  rw [String.data_append, String.data_append, String.data_append]
  simp [List.append_assoc]

/-- The padded rendering is injective. -/
theorem padSeq_inj (m n : Nat) (h : padSeq m = padSeq n) : m = n := by
  have hdec := congrArg decodePad h
  rwa [decodePad_padSeq, decodePad_padSeq] at hdec

/-- Two generated ids with eight-character dates agree only when both the
date and the counter agree: ids never collide across distinct counters. -/
theorem genAlertId_inj (d1 d2 : String) (h1 : d1.length = 8) (h2 : d2.length = 8)
    (m n : Nat) (h : genAlertId d1 m = genAlertId d2 n) : d1 = d2 ∧ m = n := by
  have hd := congrArg String.data h
  rw [genAlertId_data, genAlertId_data, List.append_cancel_left_eq] at hd
  have hlen : d1.data.length = d2.data.length := by
    show d1.length = d2.length
    rw [h1, h2]
  obtain ⟨hdd, hcons⟩ := List.append_inj hd hlen
  have hpad : padSeq m = padSeq n := by
    injection hcons
  exact ⟨String.toList_inj.mp hdd, padSeq_inj m n hpad⟩

/-- Dropping the thirteen-character prefix of a generated id leaves the
padded counter. -/
theorem genAlertId_drop (d : String) (h : d.length = 8) (n : Nat) :
    (genAlertId d n).data.drop 13 = padSeq n := by
  rw [genAlertId_data]
  rw [show (13 : Nat) = (['A', 'L', 'T', '-'] : List Char).length + 9 from rfl,
    List.drop_append]
  rw [show (9 : Nat) = d.data.length + 1 from by
    rw [show d.data.length = 8 from h]]
  rw [List.drop_append]
  rfl

/-- Every id of a generator run carries a counter beyond the start. -/
theorem idGenRun_mem : ∀ (ds : List String) (start : Nat) (x : String),
    x ∈ idGenRun start ds → ∃ d k, d ∈ ds ∧ start < k ∧ x = genAlertId d k := by
  intro ds
  induction ds with
  | nil =>
      intro start x hx
      simp [idGenRun] at hx
  | cons d ds ih =>
      intro start x hx
      rcases List.mem_cons.mp hx with rfl | hmem
      · exact ⟨d, start + 1, List.mem_cons_self _ _, by omega, rfl⟩
      · obtain ⟨d2, k, hd2, hk, heq⟩ := ih (start + 1) x hmem
        exact ⟨d2, k, List.mem_cons_of_mem _ hd2, by omega, heq⟩

/-- A generator run over eight-character dates never repeats an id. -/
theorem idGenRun_nodup (ds : List String) (h8 : ∀ d ∈ ds, d.length = 8) :
    ∀ start, (idGenRun start ds).Nodup := by
  induction ds with
  | nil =>
      intro start
      simp [idGenRun]
  | cons d ds ih =>
      intro start
      refine List.nodup_cons.mpr ⟨fun hmem => ?_,
        ih (fun d2 hd2 => h8 d2 (List.mem_cons_of_mem _ hd2)) (start + 1)⟩
      obtain ⟨d2, k, hd2, hk, heq⟩ := idGenRun_mem ds (start + 1) _ hmem
      have hinj := genAlertId_inj d d2 (h8 d (List.mem_cons_self _ _))
        (h8 d2 (List.mem_cons_of_mem _ hd2)) (start + 1) k heq
      omega

/-- The counters decoded from a generator run are the consecutive naturals
after the start: ids are handed out monotonically and never reused. -/
theorem idGenRun_decode (ds : List String) (h8 : ∀ d ∈ ds, d.length = 8) :
    ∀ start, ((idGenRun start ds).map fun i => decodePad (i.data.drop 13)) =
      (List.range ds.length).map fun k => start + k + 1 := by
  induction ds with
  | nil =>
      intro start
      rfl
  | cons d ds ih =>
      intro start
      show decodePad ((genAlertId d (start + 1)).data.drop 13) ::
        ((idGenRun (start + 1) ds).map fun i => decodePad (i.data.drop 13)) = _
      rw [genAlertId_drop d (h8 d (List.mem_cons_self _ _)) (start + 1), decodePad_padSeq,
        ih (fun d2 hd2 => h8 d2 (List.mem_cons_of_mem _ hd2)) (start + 1)]
      rw [List.length_cons, List.range_succ_eq_map]
      rw [List.map_cons, List.map_map]
      refine congrArg₂ _ rfl ?_
      refine List.map_congr_left fun k hk => ?_
      show start + 1 + k + 1 = start + (k + 1) + 1
      omega

/-- Alert ids assigned by one analyze call over the positions of the
classified specs form a generator run over the call date. -/
theorem enum_map_genIds (pid ts d : String) (start : Nat) :
    ∀ (l : List AlertSpec) (k : Nat),
      (((l.enumFrom k).map fun p =>
        mkAlert (genAlertId d (start + p.1 + 1)) pid ts p.2).map Alert.id) =
      idGenRun (start + k) (List.replicate l.length d) := by
  intro l
  induction l with
  | nil => intro k; rfl
  | cons x xs ih =>
      intro k
      show genAlertId d (start + k + 1) ::
        (((xs.enumFrom (k + 1)).map fun p =>
          mkAlert (genAlertId d (start + p.1 + 1)) pid ts p.2).map Alert.id) = _
      rw [ih (k + 1)]
      rfl

/-- C9: the claim is refuted on the code: once the counter passes 99999 the
five-digit zero padding stops aligning the ids, so the id generated later
compares lexicographically below the id generated just before it. -/
theorem claim_C9_counterexample :
    genAlertId "20241012" 100000 < genAlertId "20241012" 99999 ∧
    genAlertId "20241012" 99999 ≠ genAlertId "20241012" 100000 := by
  constructor
  · rw [String.lt_iff_toList_lt]
    decide
  · decide

/-- C9 (amended): within one process lifetime every id the generator
produces — across seeding and every analyze call — is unique and never
reused, and the numeric sequence component (decoded back out of the
ALT-date-sequence format) is strictly increasing in generation order; the id
strings themselves are lexicographically increasing only while the counter
stays within the five-digit padding. Seeding consumes counters 1-50 and each
analyze call consumes the next consecutive counters. -/
theorem claim_C9 :
    (∀ dates : List String, (∀ d ∈ dates, d.length = 8) → ∀ start : Nat,
      (idGenRun start dates).Nodup ∧
      ((idGenRun start dates).map fun i => decodePad (i.data.drop 13)) =
        (List.range dates.length).map fun k => start + k + 1) ∧
    (∀ (s : Settings) (c : Clock) (pid : String) (v : Vitals) (e : AlertEngine),
      ((analyze_vitals s c pid v e).1.map Alert.id) =
        idGenRun e.alert_counter (List.replicate (classifySpecs s v).length c.dateStr) ∧
      (analyze_vitals s c pid v e).2.alert_counter =
        e.alert_counter + (classifySpecs s v).length) ∧
    (∀ (choose : Nat → Nat → Fin 6) (val : Nat → Nat → ℚ) (ts : Nat → Nat → String)
      (date : String),
      ((allAlerts (seedEngine choose val ts date).active_alerts).map Alert.id) =
        idGenRun 0 (List.replicate 50 date) ∧
      (seedEngine choose val ts date).alert_counter = 50) := by
  refine ⟨fun dates h8 start =>
      ⟨idGenRun_nodup dates h8 start, idGenRun_decode dates h8 start⟩,
    fun s c pid v e =>
      ⟨enum_map_genIds pid c.isoStr c.dateStr e.alert_counter (classifySpecs s v) 0, rfl⟩,
    fun choose val ts date => ⟨rfl, rfl⟩⟩

/-- C9 witness: a two-call run over eight-character dates has distinct ids
whose decoded counters are 1 then 2. -/
theorem claim_C9_witness :
    (idGenRun 0 ["20240101", "20240102"]).Nodup ∧
    ((idGenRun 0 ["20240101", "20240102"]).map fun i => decodePad (i.data.drop 13)) =
      (List.range 2).map fun k => 0 + k + 1 :=
  ⟨(claim_C9.1 ["20240101", "20240102"] (by decide) 0).1,
   (claim_C9.1 ["20240101", "20240102"] (by decide) 0).2⟩

/-- C10: every engine-generated id fails ObjectId validation (it starts with
ALT-, whose letter L is not a hexadecimal digit), so the durable-store
acknowledge returns false and changes no record, and the acknowledge
endpoint outcome is decided by the in-memory store alone. -/
theorem claim_C10 (d : String) (n : Nat) (db : Option (List MongoRec))
    (e : AlertEngine) :
    isValidObjectId (genAlertId d n) = false ∧
    (mongoAcknowledge db (genAlertId d n)).1 = false ∧
    (mongoAcknowledge db (genAlertId d n)).2 = db ∧
    (acknowledgeEndpoint (genAlertId d n) e db).1 =
      (acknowledge_alert (genAlertId d n) e).1 := by
  have hval : isValidObjectId (genAlertId d n) = false := by
    unfold isValidObjectId
    rw [genAlertId_data, List.all_append]
    rw [show (['A', 'L', 'T', '-'] : List Char).all isHexDigit = false from by decide]
    simp
  refine ⟨hval, ?_, ?_, rfl⟩
  · cases db with
    | none => rfl
    | some recs => simp [mongoAcknowledge, hval]
  · cases db with
    | none => rfl
    | some recs => simp [mongoAcknowledge, hval]

end HealthAlerts
